import Mathlib

/-!
Shallow embedding of the chronoverse generation pipeline.

Each definition below is translated from a named function of the repository:

* `apps/backend/app/services/rate_limit.py` — `allow_user`, `allow_ip`,
  `allow_token`, `_minute_bucket` (in-process counter path).
* `app/services/poem_service.py` — `time_str`, `daypart_for`, `make_prompt`,
  `choose_model`, `generate_poem`.
* `app/services/pricing.py` — `_env_candidates`, `_price_for`, `get_prices`,
  `cost_usd`.
* `app/services/cache.py` — the legacy sync `get`/`set` and the module state
  (local TTL cache, shared store, disabled flag).
* `app/services/micro_directives.py` — word banks, `DIRECTIVES`,
  `BUCKET_ORDER`, `BUCKET_MAP`, `_hash_choice`, `pick`.
* `app/adapters/registry.py` — `OpenAIAdapter.generate` (parameter shaping,
  single stripped-parameter retry, telemetry).

Modelling conventions: Python floats are rationals (`ℚ`); Python `None` for a
declared-`bool` return is `Option Bool`; ambient effects (clock, uuid, the
event store, the upstream API) are explicit fields of environment records;
unseeded `random.choice` consumes a stream of naturals (`rng : List ℕ`,
`choice seq` takes the head `n` and picks `seq[n % len]`); `hashlib.sha256`
digests, used only via `int(...hexdigest(), 16)`, are abstracted as a
function parameter `sha : String → ℕ`.
-/

namespace Chronoverse

/-- Values stored in Python dicts such as `params_used`: booleans, strings
or numbers. -/
inductive PVal where
  | bool (b : Bool)
  | str (s : String)
  | num (q : ℚ)
deriving DecidableEq, Repr

/-- `d[k] = v` on an association list: replace an existing binding or append. -/
def assocSet {α : Type} [BEq α] {β : Type} (l : List (α × β)) (k : α) (v : β) :
    List (α × β) :=
  match l with
  | [] => [(k, v)]
  | (k', v') :: rest =>
      if k' == k then (k, v) :: rest else (k', v') :: assocSet rest k v

/-- `d.pop(k, None)` on an association list: drop the binding for `k`. -/
def assocPop {α : Type} [BEq α] {β : Type} (l : List (α × β)) (k : α) :
    List (α × β) :=
  match l with
  | [] => []
  | (k', v') :: rest =>
      if k' == k then rest else (k', v') :: assocPop rest k

/-- Substring test (`pat in s` on Python strings). -/
def listStartsWith : List Char → List Char → Bool
  | [], _ => true
  | _ :: _, [] => false
  | a :: as, b :: bs => a == b && listStartsWith as bs

def strContainsAux (pat : List Char) : List Char → Bool
  | [] => listStartsWith pat []
  | c :: rest => listStartsWith pat (c :: rest) || strContainsAux pat rest

def strContains (s pat : String) : Bool := strContainsAux pat.data s.data

/-- Python `str.strip()` (no argument): drop whitespace at both ends. -/
def pyStrip (s : String) : String :=
  ⟨((s.data.dropWhile Char.isWhitespace).reverse.dropWhile
      Char.isWhitespace).reverse⟩

/-- One structural pass of Python `str.replace`: `skip` counts characters of
an already-emitted occurrence still to be consumed. -/
def pyReplaceAux (pat rep : List Char) : List Char → ℕ → List Char
  | [], _ => []
  | c :: rest, skip =>
      match skip with
      | n + 1 => pyReplaceAux pat rep rest n
      | 0 =>
          if pat ≠ [] ∧ listStartsWith pat (c :: rest) then
            rep ++ pyReplaceAux pat rep rest (pat.length - 1)
          else c :: pyReplaceAux pat rep rest 0

/-- Python `s.replace(pat, rep)`: all non-overlapping occurrences, left to
right. -/
def pyReplace (s pat rep : String) : String :=
  ⟨pyReplaceAux pat.data rep.data s.data 0⟩

/-- Python `str.lower()` (ASCII range suffices for the values involved). -/
def pyLower (s : String) : String := ⟨s.data.map Char.toLower⟩

/-- Python `s[-n:]`. -/
def pyTakeLast (s : String) (n : ℕ) : String :=
  ⟨s.data.drop (s.data.length - n)⟩

/-- Python `s.startswith(pat)`. -/
def pyStartsWith (s pat : String) : Bool := listStartsWith pat.data s.data

/-! ## Rate limiter — `apps/backend/app/services/rate_limit.py`

The claims concern the in-process counter path (`_redis_client()` returning
`None`), so the shared-store branch is not modelled.  Module state is the
three in-memory dicts; `time.time()` values are rationals. -/

/-- `_minute_bucket`: `int((ts or time.time()) // 60)`. -/
def minute_bucket (ts : ℚ) : ℤ := ⌊ts / 60⌋

/-- In-memory counters of the rate-limit module: `value → (count, bucket_ts)`. -/
structure RLState where
  mem_user : List (String × (ℕ × ℚ))
  mem_ip : List (String × (ℕ × ℚ))
  mem_token : List (String × (ℕ × ℚ))
deriving DecidableEq, Repr

/-- The body shared by `allow_user`/`allow_token` after the falsy-identity
guard: reset the counter when the observed minute bucket changes, increment,
compare with `limit = max(1, N)`. -/
def rlIncr (limitN : ℤ) (mem : List (String × (ℕ × ℚ))) (idv : String)
    (now : ℚ) : Bool × List (String × (ℕ × ℚ)) :=
  let limit : ℤ := max 1 limitN
  let cb := (mem.lookup idv).getD (0, now)
  let cb := if minute_bucket cb.2 ≠ minute_bucket now then (0, now) else cb
  let count := cb.1 + 1
  ((count : ℤ) ≤ limit, assocSet mem idv (count, cb.2))

/-- `allow_user(user_id)` on the in-process path.  `none`/`""` are falsy and
allowed outright.  The Python `None` result is `Option.none`; this function
always returns `some`. -/
def allow_user (userRL : ℤ) (user_id : Option String) (now : ℚ)
    (st : RLState) : Option Bool × RLState :=
  match user_id with
  | none => (some true, st)
  | some uid =>
      if uid = "" then (some true, st)
      else
        let (ok, mem) := rlIncr userRL st.mem_user uid now
        (some ok, { st with mem_user := mem })

/-- `allow_ip(ip)` exactly as written in the source: after the falsy guard the
function computes `limit` and `key` and then ends — the statements that
would query and update the counter sit unreachable after the `return` of
`allow_token` — so Python returns `None` for every non-empty ip. -/
def allow_ip (ipRL : ℤ) (ip : Option String) (now : ℚ)
    (st : RLState) : Option Bool × RLState :=
  match ip with
  | none => (some true, st)
  | some s =>
      if s = "" then (some true, st)
      else
        -- limit and the redis-style counter key are computed and
        -- discarded; the function body ends here
        (none, st)

/-- `allow_token(token)` on the in-process path. -/
def allow_token (tokenRL : ℤ) (token : Option String) (now : ℚ)
    (st : RLState) : Option Bool × RLState :=
  match token with
  | none => (some true, st)
  | some tok =>
      if tok = "" then (some true, st)
      else
        let (ok, mem) := rlIncr tokenRL st.mem_token tok now
        (some ok, { st with mem_token := mem })

/-! ## Poem service context helpers — `app/services/poem_service.py` -/

/-- The `Tone` literal of `app/core/types.py`. -/
inductive Tone where
  | Whimsical | Stoic | Wistful | Funny | Haiku | Noir | Minimal | Cosmic
deriving DecidableEq, Repr

def Tone.toStr : Tone → String
  | .Whimsical => "Whimsical"
  | .Stoic => "Stoic"
  | .Wistful => "Wistful"
  | .Funny => "Funny"
  | .Haiku => "Haiku"
  | .Noir => "Noir"
  | .Minimal => "Minimal"
  | .Cosmic => "Cosmic"

/-- `TONE_STYLE` dict (the `Haiku` entry keeps the spelling of the source). -/
def TONE_STYLE : Tone → String
  | .Whimsical => "light, playful metaphors; gentle alliteration"
  | .Stoic => "calm, restrained, simple diction"
  | .Wistful => "short, soft, nostalgia"
  | .Funny => "wry, amusing humor"
  | .Haiku => "write exactly 3 lines with 5/7/5 syllables inlcuding the time."
  | .Noir => "moody, cinematic; concrete imagery"
  | .Minimal => "ultra-brief; no adjectives"
  | .Cosmic => "space/time motifs; awe"

/-- A `datetime.now(ZoneInfo(tz))` moment: the strftime `%Y-%m-%dT%H:%M`
rendering (used for the cache key) plus the hour and minute fields. -/
structure LocalDT where
  ymdhm : String
  hour : ℕ
  minute : ℕ
deriving DecidableEq, Repr

def pad2 (n : ℕ) : String := if n < 10 then "0" ++ toString n else toString n

/-- `time_str(tz, fmt)` given an already-resolved local moment (the POSIX
branch: `%-I` has no leading zero).  `ZoneInfo(tz)` resolution itself — which
raises on an unknown zone — is modelled at the call site in `generate_poem`. -/
def time_str (dt : LocalDT) (fmt : String) : String :=
  if fmt = "24h" then pad2 dt.hour ++ ":" ++ pad2 dt.minute
  else
    let h := dt.hour % 12
    let h := if h = 0 then 12 else h
    toString h ++ ":" ++ pad2 dt.minute ++ (if dt.hour < 12 then " AM" else " PM")

/-- `daypart_for(local_dt)` on `hm = hour * 60 + minute`. -/
def daypart_for (hm : ℕ) : String :=
  if 4 * 60 ≤ hm ∧ hm ≤ 5 * 60 + 59 then "pre-dawn"
  else if 6 * 60 ≤ hm ∧ hm ≤ 7 * 60 + 59 then "early morning"
  else if 8 * 60 ≤ hm ∧ hm ≤ 11 * 60 + 29 then "morning"
  else if 11 * 60 + 30 ≤ hm ∧ hm ≤ 13 * 60 + 29 then "midday"
  else if 13 * 60 + 30 ≤ hm ∧ hm ≤ 16 * 60 + 59 then "afternoon"
  else if 17 * 60 ≤ hm ∧ hm ≤ 20 * 60 + 29 then "evening"
  else "late night"

/-- `make_prompt(time_used, tone, daypart, extra_hint)`. -/
def make_prompt (time_used : String) (tone : Tone) (daypart : String)
    (extra_hint : Option String) : String :=
  "You are a Master Poet writing brief, time-aware poems.\n" ++
  "<<RULES>>\n" ++
  "- Write a short poem that includes the time exactly once.\n" ++
  "- Write the time anywhere in the poem (number or english form).\n" ++
  "- Length: ≤ 3 lines and <180 characters.\n" ++
  "- Voice: punchy, fun, accessible; prefer concrete images and active verbs.\n" ++
  "- Output the poem only.\n" ++
  "- Mind the input but it\x27s optional to include in poem text.\n" ++
  "<<INPUT>>\n" ++
  "time: " ++ time_used ++ "\n" ++
  "daypart: " ++ daypart ++ "\n" ++
  "tone: " ++ tone.toStr ++ "\n" ++
  "style: " ++ TONE_STYLE tone ++ "\n" ++
  (match extra_hint with
   | some s => if s ≠ "" then s ++ "\n" else ""
   | none => "") ++
  "<<OUTPUT>>\n"

/-- Value of a hex digit; `req_id` suffixes are hex by construction
(`uuid4().hex`), the non-hex default never fires on reachable inputs. -/
def hexDigitVal (c : Char) : ℕ :=
  if c.isDigit then c.toNat - '0'.toNat
  else if 'a' ≤ c ∧ c ≤ 'f' then c.toNat - 'a'.toNat + 10
  else if 'A' ≤ c ∧ c ≤ 'F' then c.toNat - 'A'.toNat + 10
  else 0

/-- `int(s, 16)` on a hex string. -/
def hexVal (s : String) : ℕ := s.data.foldl (fun a c => a * 16 + hexDigitVal c) 0

/-! ## Pricing — `app/services/pricing.py`

`os.environ` is a function `String → String` (unset = `""`, matching
`os.getenv(key, "")`), and Python `float(raw)` — which may raise
`ValueError` — is a parameter `parseFloat : String → Option ℚ`. -/

def isAlnumAscii (c : Char) : Bool := c.isAlpha || c.isDigit

/-- `re.sub(r"[^A-Za-z0-9]+", "_", model)` followed by `.upper()`:
each run of non-alphanumerics becomes a single underscore. -/
def envSafeGo : List Char → Bool → List Char
  | [], _ => []
  | c :: rest, inRun =>
      if isAlnumAscii c then c.toUpper :: envSafeGo rest false
      else if inRun then envSafeGo rest true
      else '_' :: envSafeGo rest true

def envSafe (model : String) : String := ⟨envSafeGo model.data false⟩

/-- `_env_candidates(model, kind)`. -/
def _env_candidates (model kind : String) : List String :=
  ["PRICE_" ++ kind ++ "_" ++ envSafe model, "PRICE_" ++ kind ++ "_" ++ model]

def _price_for_go (envv : String → String) (parseFloat : String → Option ℚ) :
    List String → Option ℚ
  | [] => none
  | key :: rest =>
      let raw := pyStrip (envv key)
      if raw = "" then _price_for_go envv parseFloat rest
      else
        match parseFloat raw with
        | some q => some q
        | none => _price_for_go envv parseFloat rest  -- warn and keep looking

/-- `_price_for(model, kind)`. -/
def _price_for (envv : String → String) (parseFloat : String → Option ℚ)
    (model kind : String) : Option ℚ :=
  _price_for_go envv parseFloat (_env_candidates model kind)

/-- `get_prices(model)`: `(p_in or 0.0, p_out or 0.0)` (for numbers, Python
`x or 0.0` collapses a falsy `0.0` to `0.0`, so `getD 0` agrees). -/
def get_prices (envv : String → String) (parseFloat : String → Option ℚ)
    (model : String) : ℚ × ℚ :=
  ((_price_for envv parseFloat model "PROMPT").getD 0,
   (_price_for envv parseFloat model "COMPLETION").getD 0)

/-- Python `round(x, 6)` (round-half-to-even), on exact rationals. -/
def pyRound6 (x : ℚ) : ℚ :=
  let y := x * 1000000
  let r : ℤ := if y - ⌊y⌋ = 1 / 2 then (if ⌊y⌋ % 2 = 0 then ⌊y⌋ else ⌊y⌋ + 1)
               else round y
  (r : ℚ) / 1000000

/-- `cost_usd(model, prompt_tokens, completion_tokens)`. -/
def cost_usd (envv : String → String) (parseFloat : String → Option ℚ)
    (model : String) (prompt_tokens completion_tokens : ℕ) : ℚ :=
  let p := get_prices envv parseFloat model
  pyRound6 ((prompt_tokens / 1000000 : ℚ) * p.1 +
            (completion_tokens / 1000000 : ℚ) * p.2)

/-! ## Adapter result — `app/adapters/registry.py` (`LLMResult`) -/

structure LLMResult where
  text : String
  model : String
  response_id : Option String
  prompt_tokens : ℕ
  completion_tokens : ℕ
  reasoning_tokens : ℕ
  latency_ms : ℕ
  retry_count : ℕ
  params_used : List (String × PVal)
deriving DecidableEq, Repr

/-! ## GenerationResult payload — the dict built by `generate_poem` -/

structure Payload where
  poem : String
  model : Option String
  generated_at_iso : String
  time_used : String
  tone : Tone
  cached : Bool
  status : String
  prompt_tokens : ℕ
  completion_tokens : ℕ
  reasoning_tokens : ℕ
  cost_usd : ℚ
  request_id : String
  timezone : String
  retry_count : ℕ
  params_used : Option (List (String × PVal))
  daypart : String
  response_id : Option String
  latency_ms : Option ℕ
  directive_id : String
  extra_hint : String
deriving DecidableEq, Repr

/-! ## Cache module state — `app/services/cache.py`

The local `TTLCache` is an association list of the currently-live entries
(all claims act within one TTL window, so expiry never fires inside a
modelled scenario); the shared store keeps decoded payloads. -/

structure CacheState where
  localCache : List (String × Payload)
  redisConfigured : Bool
  redisDisabled : Bool
  redisStore : List (String × Payload)
deriving DecidableEq, Repr

namespace Cache

/-- Legacy sync `get(key)`: reads the local `TTLCache` only. -/
def get (st : CacheState) (key : String) : Option Payload :=
  st.localCache.lookup key

/-- Legacy sync `set(key, value)`: writes the local `TTLCache` only. -/
def set (st : CacheState) (key : String) (v : Payload) : CacheState :=
  { st with localCache := assocSet st.localCache key v }

/-- `_redis_client()` returns a client iff `REDIS_URL` is configured and the
module has not disabled itself. -/
def redisClientActive (st : CacheState) : Bool :=
  !st.redisDisabled && st.redisConfigured

/-- Async `aget(key)` (with a healthy shared store): prefers the shared
store, reads the local cache only when no client is available. -/
def aget (st : CacheState) (key : String) : Option Payload :=
  if redisClientActive st then st.redisStore.lookup key
  else st.localCache.lookup key

end Cache

/-! ## `generate_poem` — `app/services/poem_service.py`

The ambient effects the function samples (uuid, two clock reads, the
event-store aggregate, the adapter call) are fields of `PoemEnv`, in source
order.  `micro_directives.pick` is modelled in its own section below; here
its result is an environment field (its internals are irrelevant to the
orchestration claims).  The shadow-mode `bg.add_task` block touches neither
the returned payload nor the cache and is not traced. -/

/-- Outcome of `adapter.generate(model, prompt, max_tokens=500)` as seen by
the orchestrator: a result, or any raised exception. -/
inductive AdapterOutcome where
  | ok (res : LLMResult)
  | raise
deriving DecidableEq, Repr

structure PoemEnv where
  /- `cfg : Settings` -/
  PRIMARY_MODEL : String
  SECONDARY_MODEL : String
  EXPERIMENT_MODE : String
  AB_SPLIT : ℤ
  DAILY_COST_LIMIT_USD : ℚ
  /- call arguments -/
  tone : Tone
  tz : String
  fmt : String
  force_new : Bool
  /- ambient effects, in the order the source samples them -/
  req_id : String
  zone : Option LocalDT
  utc_now_iso : String
  today_cost : ℚ
  directive : String × String
  adapter : AdapterOutcome
  cache0 : CacheState
  envVars : String → String
  parseFloat : String → Option ℚ

/-- Side effects of one `generate_poem` call. -/
structure Effects where
  cacheReads : List String
  cacheAfter : CacheState
  adapterCalls : List (String × String)
  events : List Payload
deriving DecidableEq, Repr

/-- `choose_model(cfg, req_id)`. -/
def choose_model (env : PoemEnv) (req_id : String) : String :=
  if env.EXPERIMENT_MODE = "single" then env.PRIMARY_MODEL
  else if env.EXPERIMENT_MODE = "ab" then
    let bucket := hexVal (pyTakeLast req_id 4) % 100
    if (bucket : ℤ) < max 0 (min 100 env.AB_SPLIT) then env.SECONDARY_MODEL
    else env.PRIMARY_MODEL
  else env.PRIMARY_MODEL

def budget_poem : String :=
  "The clock ticks on, a steady, rhythmic chime,\nBut our quill must rest—budget keeps the time."

def error_poem : String :=
  "The clock ticks on, a steady, rhythmic chime,\nBut the muse of code is lost in space and time.\nIt tried to write a verse for you, it\x27s true,\nBut the server sprites had other things to do."

def cache_key (env : PoemEnv) (dt : LocalDT) : String :=
  dt.ymdhm ++ "|" ++ env.tz ++ "|" ++ env.tone.toStr ++ "|" ++ env.PRIMARY_MODEL

/-- The budget-gate fallback dict. -/
def budget_payload (env : PoemEnv) (dt : LocalDT) (t_used : String) : Payload :=
  { poem := budget_poem, model := none, generated_at_iso := env.utc_now_iso,
    time_used := t_used, tone := env.tone, cached := false,
    status := "fallback", prompt_tokens := 0, completion_tokens := 0,
    reasoning_tokens := 0, cost_usd := 0, request_id := env.req_id,
    timezone := env.tz, retry_count := 0, params_used := none,
    daypart := daypart_for (dt.hour * 60 + dt.minute), response_id := none,
    latency_ms := none, directive_id := env.directive.2,
    extra_hint := env.directive.1 }

/-- The empty-text safety-net fallback dict (telemetry preserved). -/
def empty_text_payload (env : PoemEnv) (dt : LocalDT) (t_used : String)
    (res : LLMResult) : Payload :=
  { poem := error_poem,
    model := if res.model ≠ "" then some res.model else none,
    generated_at_iso := env.utc_now_iso, time_used := t_used,
    tone := env.tone, cached := false, status := "fallback",
    prompt_tokens := res.prompt_tokens,
    completion_tokens := res.completion_tokens,
    reasoning_tokens := res.reasoning_tokens, cost_usd := 0,
    request_id := env.req_id, timezone := env.tz,
    retry_count := res.retry_count, params_used := some res.params_used,
    daypart := daypart_for (dt.hour * 60 + dt.minute),
    response_id := res.response_id, latency_ms := some res.latency_ms,
    directive_id := env.directive.2, extra_hint := env.directive.1 }

/-- The successful (`status = "ok"`) payload dict. -/
def ok_payload (env : PoemEnv) (dt : LocalDT) (t_used : String)
    (res : LLMResult) : Payload :=
  { poem := res.text, model := some res.model,
    generated_at_iso := env.utc_now_iso, time_used := t_used,
    tone := env.tone, cached := false, status := "ok",
    prompt_tokens := res.prompt_tokens,
    completion_tokens := res.completion_tokens,
    reasoning_tokens := res.reasoning_tokens,
    cost_usd := cost_usd env.envVars env.parseFloat res.model
      res.prompt_tokens res.completion_tokens,
    request_id := env.req_id, timezone := env.tz,
    retry_count := res.retry_count, params_used := some res.params_used,
    daypart := daypart_for (dt.hour * 60 + dt.minute),
    response_id := res.response_id, latency_ms := some res.latency_ms,
    directive_id := env.directive.2, extra_hint := env.directive.1 }

/-- The hard-failure fallback dict (telemetry zeroed). -/
def error_payload (env : PoemEnv) (dt : LocalDT) (t_used : String) : Payload :=
  { poem := error_poem, model := none, generated_at_iso := env.utc_now_iso,
    time_used := t_used, tone := env.tone, cached := false,
    status := "fallback", prompt_tokens := 0, completion_tokens := 0,
    reasoning_tokens := 0, cost_usd := 0, request_id := env.req_id,
    timezone := env.tz, retry_count := 0, params_used := none,
    daypart := daypart_for (dt.hour * 60 + dt.minute), response_id := none,
    latency_ms := none, directive_id := env.directive.2,
    extra_hint := env.directive.1 }

/-- `t_used.replace(" AM","").replace(" PM","").replace(" am","").replace(" pm","")`. -/
def stripAmPm (s : String) : String :=
  pyReplace (pyReplace (pyReplace (pyReplace s " AM" "") " PM" "") " am" "") " pm" ""

/-- `"12h" if fmt not in ("12h","24h") else fmt`. -/
def fmt_arg (env : PoemEnv) : String :=
  if env.fmt ≠ "12h" ∧ env.fmt ≠ "24h" then "12h" else env.fmt

/-- The `t_used` binding of `generate_poem`. -/
def t_used_of (env : PoemEnv) (dt : LocalDT) : String := time_str dt (fmt_arg env)

/-- The prompt built for the user-facing call. -/
def prompt_of (env : PoemEnv) (dt : LocalDT) : String :=
  make_prompt (stripAmPm (t_used_of env dt)) env.tone
    (daypart_for (dt.hour * 60 + dt.minute)) (some env.directive.1)

/-- The `(model, prompt)` pair of the user-facing adapter invocation. -/
def call_of (env : PoemEnv) (dt : LocalDT) : String × String :=
  (choose_model env env.req_id, prompt_of env dt)

/-- Keys read by the cache check (empty under `force_new`). -/
def reads_of (env : PoemEnv) (dt : LocalDT) : List String :=
  if env.force_new then [] else [cache_key env dt]

/-- The cache consultation: `None` under `force_new`, else the sync `get`. -/
def hit_of (env : PoemEnv) (dt : LocalDT) : Option Payload :=
  if env.force_new then none else Cache.get env.cache0 (cache_key env dt)

/-- `generate_poem(cfg, adapter, tone, tz, fmt, force_new)`.  Returns
`.error ()` when an exception escapes (only `ZoneInfo(tz)` resolution can,
at line 99, before the guarded region), else the payload and the effect
trace. -/
def generate_poem (env : PoemEnv) : Except Unit (Payload × Effects) :=
  match env.zone with
  | none => .error ()  -- time_str → ZoneInfo(tz) raises; nothing else ran
  | some dt =>
    if env.today_cost ≥ env.DAILY_COST_LIMIT_USD then
      let payload := budget_payload env dt (t_used_of env dt)
      .ok (payload, { cacheReads := [], cacheAfter := env.cache0,
                      adapterCalls := [], events := [payload] })
    else
      match hit_of env dt with
      | some cp =>
          .ok ({ cp with cached := true },
               { cacheReads := reads_of env dt, cacheAfter := env.cache0,
                 adapterCalls := [], events := [] })
      | none =>
        match env.adapter with
        | .raise =>
            let payload := error_payload env dt (t_used_of env dt)
            .ok (payload, { cacheReads := reads_of env dt,
                            cacheAfter := env.cache0,
                            adapterCalls := [call_of env dt],
                            events := [payload] })
        | .ok res =>
            if pyStrip res.text = "" then
              let payload := empty_text_payload env dt (t_used_of env dt) res
              .ok (payload, { cacheReads := reads_of env dt,
                              cacheAfter := env.cache0,
                              adapterCalls := [call_of env dt],
                              events := [payload] })
            else
              let payload := ok_payload env dt (t_used_of env dt) res
              let after :=
                if res.model = env.PRIMARY_MODEL ∧ payload.status = "ok" then
                  Cache.set env.cache0 (cache_key env dt) payload
                else env.cache0
              .ok (payload, { cacheReads := reads_of env dt,
                              cacheAfter := after,
                              adapterCalls := [call_of env dt],
                              events := [payload] })

/-! ## LLM adapter — `app/adapters/registry.py` (`OpenAIAdapter.generate`)

`_extract_text` is abstracted: the upstream response carries the text that
extraction recovers (no claim concerns the extraction strategies), along
with the tolerantly-read usage numbers.  The upstream API is a function of
the request kwargs. -/

/-- An upstream response, post-extraction view. -/
structure UpstreamResp where
  text : String
  rid : Option String
  input_tokens : ℕ
  output_tokens : ℕ
  reasoning_tokens : ℕ
deriving DecidableEq, Repr

inductive UpOutcome where
  | ok (r : UpstreamResp)
  | badRequest (msg : String)
  | failure
deriving DecidableEq, Repr

/-- The kwargs dict sent to `client.responses.create`.  `text` here is the
whole `text` config block (present iff the key is in the dict, with its
optional `verbosity` field); `reasoning` is the effort block. -/
structure Kwargs where
  model : String
  input : String
  max_output_tokens : ℕ
  temperature : Option ℚ
  text : Option (Option String)
  reasoning : Option String
deriving DecidableEq, Repr

structure AdapterEnv where
  getenv : String → Option String
  upstream : Kwargs → UpOutcome
  latency : ℕ

inductive AdapterError where
  | badRequest (msg : String)
  | failure
deriving DecidableEq, Repr

def _is_gpt5 (model : String) : Bool := pyStartsWith model "gpt-5"

def allowed_v : List String := ["low", "medium", "high"]
def allowed_e : List String := ["minimal", "low", "medium", "high"]

/-- Parameter shaping at the top of `generate`: the kwargs dict and the
initial `params_used`. -/
def build_kwargs (A : AdapterEnv) (model prompt : String) (max_tokens : ℕ)
    (temperature : Option ℚ) : Kwargs × List (String × PVal) :=
  let kw : Kwargs := { model := model, input := prompt,
                       max_output_tokens := max_tokens, temperature := none,
                       text := none, reasoning := none }
  let pu : List (String × PVal) := [("temperature", .bool false)]
  if _is_gpt5 model then
    let raw_v := pyLower (pyStrip ((A.getenv "VERBOSITY").getD "low"))
    let raw_e := pyLower (pyStrip ((A.getenv "REASONING_EFFORT").getD "low"))
    let vOk := allowed_v.contains raw_v
    let eOk := allowed_e.contains raw_e
    let kw := { kw with text := some (if vOk then some raw_v else none) }
    let pu := if vOk then assocSet pu "verbosity" (.str raw_v) else pu
    let kw := if eOk then { kw with reasoning := some raw_e } else kw
    let pu := if eOk then assocSet pu "reasoning_effort" (.str raw_e) else pu
    (kw, pu)
  else
    match temperature with
    | some t => ({ kw with temperature := some t },
                 assocSet pu "temperature" (.num t))
    | none => (kw, pu)

def mkLLMResult (model : String) (resp : UpstreamResp) (latency retry : ℕ)
    (pu : List (String × PVal)) : LLMResult :=
  { text := resp.text, model := model, response_id := resp.rid,
    prompt_tokens := resp.input_tokens, completion_tokens := resp.output_tokens,
    reasoning_tokens := resp.reasoning_tokens, latency_ms := latency,
    retry_count := retry, params_used := pu }

/-- The single retried call after a parameter strip; a second rejection (or
any other failure) propagates with no further retries. -/
def retried_call (A : AdapterEnv) (model : String) (kw kw2 : Kwargs)
    (pu2 : List (String × PVal)) : Except AdapterError LLMResult × List Kwargs :=
  match A.upstream kw2 with
  | .ok resp => (.ok (mkLLMResult model resp A.latency 1 pu2), [kw, kw2])
  | .badRequest m2 => (.error (.badRequest m2), [kw, kw2])
  | .failure => (.error .failure, [kw, kw2])

/-- `OpenAIAdapter.generate`, returning the result together with the list of
upstream invocations made (in order). -/
def OpenAIAdapter.generate (A : AdapterEnv) (model prompt : String)
    (max_tokens : ℕ) (temperature : Option ℚ) :
    Except AdapterError LLMResult × List Kwargs :=
  let kw := (build_kwargs A model prompt max_tokens temperature).1
  let pu := (build_kwargs A model prompt max_tokens temperature).2
  match A.upstream kw with
  | .ok resp => (.ok (mkLLMResult model resp A.latency 0 pu), [kw])
  | .failure => (.error .failure, [kw])
  | .badRequest msg =>
      if strContains msg "Unsupported parameter" || strContains msg "is not supported" then
        if strContains msg "temperature" && kw.temperature.isSome then
          retried_call A model kw { kw with temperature := none }
            (assocSet pu "temperature" (.bool false))
        else if (strContains msg "text" || strContains msg "verbosity") && kw.text.isSome then
          retried_call A model kw { kw with text := none } (assocPop pu "verbosity")
        else if (strContains msg "reasoning" || strContains msg "effort") && kw.reasoning.isSome then
          retried_call A model kw { kw with reasoning := none }
            (assocPop pu "reasoning_effort")
        else (.error (.badRequest msg), [kw])
      else (.error (.badRequest msg), [kw])

/-! ## Micro-directive selector — `app/services/micro_directives.py` -/

def PLACES : List String :=
  ["beach dune", "bus-stop bench", "rooftop edge", "diner booth", "ferry deck",
   "library", "alley loading dock", "parking lot median", "laundromat aisle",
   "under a tree", "train platform", "underpass", "porch steps", "fire escape",
   "office break room", "waiting room", "hospital corridor", "airport gate",
   "bodega aisle", "bridge", "drive-thru lane", "vacant lot", "motel balcony",
   "bus shelter", "subway car", "skate-park edge", "school bleachers",
   "cemetery path", "farmers-market", "river levee", "diner counter",
   "porch swing", "front stoop"]

/-- `COLORS`: the source writes `"teal" "ivory"` (adjacent string literals),
which Python concatenates into the single element `"tealivory"`. -/
def COLORS : List String :=
  ["indigo", "ochre", "rust", "lilac", "cobalt", "sage", "marigold",
   "tealivory", "amber", "coral", "mint", "mauve", "navy", "slate", "rose",
   "burgundy", "forest", "mustard"]

def MOTION_VERBS : List String :=
  ["drift", "swerve", "scuff", "shuffle", "jolt", "shiver", "sidle", "veer",
   "tilt", "stall", "skid", "skim", "glide", "creep", "amble", "lurch",
   "tremble", "quiver", "teeter", "wobble", "pivot", "dart", "slip", "bob"]

def MATERIALS : List String :=
  ["tin", "denim", "plywood", "basalt", "vinyl", "rebar", "terracotta",
   "cork", "graphite"]

def VOICES : List String :=
  ["second person (\x27you\x27)", "first plural (\x27we\x27)",
   "overheard dialogue", "note-to-self"]

def FORMS : List String :=
  ["monostich (1 line)", "two lines with a colon in L1", "three-item list",
   "one-sentence poem (≤120 chars)", "one long line (≤180 chars)",
   "two sentences; second begins \x27but\x27", "question-only (≤80 chars)",
   "abecedarian fragment (A,B)"]

def LIGHT_WEATHER : List String :=
  ["sodium light", "neon wash", "dawn-blue", "rain mist", "heat shimmer",
   "fog halo", "flickering fluorescent", "overcast glare", "TV blue",
   "siren flash", "snow glow", "smoke haze"]

/-- A directive: its id, the word bank its template draws from (each
`render` makes exactly one `choose(...)` call), and the sentence template.
All source directives leave `allow_tones = None`. -/
structure Directive where
  id : String
  bank : List String
  render1 : String → String
  allow_tones : Option (List String) := none

def DIRECTIVES : List Directive :=
  [{ id := "place", bank := PLACES,
     render1 := fun w => "For this poem only: set it at a " ++ w ++ "." },
   { id := "color", bank := COLORS,
     render1 := fun w => "For this poem only: include exactly one color word: " ++ w ++ "." },
   { id := "material", bank := MATERIALS,
     render1 := fun w => "For this poem only: include the word \x27" ++ w ++ "\x27 once." },
   { id := "motionverb", bank := MOTION_VERBS,
     render1 := fun w => "For this poem only: use one present-tense motion verb: " ++ w ++ "." },
   { id := "light", bank := LIGHT_WEATHER,
     render1 := fun w => "For this poem only: mention the light/weather once (" ++ w ++ ")." },
   { id := "voice", bank := VOICES,
     render1 := fun w => "For this poem only: write in " ++ w ++ "." },
   { id := "form", bank := FORMS,
     render1 := fun w => "For this poem only: form = " ++ w ++ "." }]

def BUCKET_ORDER : List String :=
  ["place", "sensory", "object", "motionverb", "light", "voice", "form",
   "material", "color", "geography", "figurative", "lens", "microbeat",
   "sound", "digit"]

def BUCKET_MAP : List (String × List String) :=
  [("place", ["place"]), ("motionverb", ["motionverb"]), ("light", ["light"]),
   ("voice", ["voice"]), ("form", ["form"]), ("material", ["material"]),
   ("color", ["color"])]

/-- Module state of the selector: the `_recent_ids` deque (maxlen 64, newest
last) plus the stream of unseeded `random.choice` draws. -/
structure MDState where
  recent : List String
  rng : List ℕ
deriving DecidableEq, Repr

def rngNext (st : MDState) : ℕ × MDState :=
  (st.rng.headD 0, { st with rng := st.rng.tail })

def pushRecent (l : List String) (id : String) : List String :=
  let l := l ++ [id]
  l.drop (l.length - 64)

def dfltDirective : Directive :=
  { id := "", bank := [""], render1 := fun _ => "" }

def tonePass (d : Directive) (tone : String) : Bool :=
  match d.allow_tones with
  | none => true
  | some ts => ts.contains tone

/-- Candidate pool for a minute and tone: the directives of the bucket, else the
tone-gated full set. -/
def md_candidates (minute_of_day : ℕ) (tone : String) : List Directive :=
  let bucket := BUCKET_ORDER.getD (minute_of_day % BUCKET_ORDER.length) ""
  let ids := (BUCKET_MAP.lookup bucket).getD []
  let c1 := DIRECTIVES.filter (fun d => ids.contains d.id && tonePass d tone)
  if c1.isEmpty then DIRECTIVES.filter (fun d => tonePass d tone) else c1

/-- `_hash_choice(seq, salt)` with the sha256 integer abstracted as `sha`
(the source raises on an empty pool; reachable pools are non-empty). -/
def _hash_choice (sha : String → ℕ) (seq : List Directive) (salt : String) :
    Directive :=
  seq.getD (sha salt % seq.length) dfltDirective

/-- `d.render()`: substitute one `random.choice` draw from the bank. -/
def render_directive (d : Directive) (st : MDState) :
    (String × String) × MDState :=
  let (n, st') := rngNext st
  ((d.render1 (d.bank.getD (n % d.bank.length) ""), d.id), st')

/-- The `while tries < 5` resampling loop of `pick`, with the unconditional
`random.choice` acceptance once the tries are exhausted. -/
def pick_loop (sha : String → ℕ) (salt : Option String)
    (cands : List Directive) : ℕ → MDState → (String × String) × MDState
  | 0, st =>
      let (n, st1) := rngNext st
      let d := cands.getD (n % cands.length) dfltDirective
      let (r, st2) := render_directive d st1
      (r, { st2 with recent := pushRecent st2.recent d.id })
  | k + 1, st =>
      let (d, st1) :=
        match salt with
        | none =>
            let (n, st') := rngNext st
            (cands.getD (n % cands.length) dfltDirective, st')
        | some s => (_hash_choice sha cands s, st)
      if st1.recent.contains d.id then pick_loop sha salt cands k st1
      else
        let (r, st2) := render_directive d st1
        (r, { st2 with recent := pushRecent st2.recent d.id })

/-- `pick(minute_of_day, tone, salt)`. -/
def pick (sha : String → ℕ) (minute_of_day : ℕ) (tone : String)
    (salt : Option String) (st : MDState) : (String × String) × MDState :=
  pick_loop sha salt (md_candidates minute_of_day tone) 5 st

/-! ## Structural lemmas about `generate_poem` -/

/-- Exhaustive case split for a normally-returning `generate_poem` call. -/
theorem generate_poem_inv (env : PoemEnv) (dt : LocalDT) (p : Payload)
    (eff : Effects) (hz : env.zone = some dt)
    (h : generate_poem env = .ok (p, eff)) :
    (env.today_cost ≥ env.DAILY_COST_LIMIT_USD ∧
      p = budget_payload env dt (t_used_of env dt) ∧
      eff = ⟨[], env.cache0, [], [p]⟩) ∨
    (¬ env.today_cost ≥ env.DAILY_COST_LIMIT_USD ∧
      ∃ cp, hit_of env dt = some cp ∧ p = { cp with cached := true } ∧
        eff = ⟨reads_of env dt, env.cache0, [], []⟩) ∨
    (¬ env.today_cost ≥ env.DAILY_COST_LIMIT_USD ∧ hit_of env dt = none ∧
      env.adapter = .raise ∧ p = error_payload env dt (t_used_of env dt) ∧
      eff = ⟨reads_of env dt, env.cache0, [call_of env dt], [p]⟩) ∨
    (¬ env.today_cost ≥ env.DAILY_COST_LIMIT_USD ∧ hit_of env dt = none ∧
      ∃ res, env.adapter = .ok res ∧ pyStrip res.text = "" ∧
        p = empty_text_payload env dt (t_used_of env dt) res ∧
        eff = ⟨reads_of env dt, env.cache0, [call_of env dt], [p]⟩) ∨
    (¬ env.today_cost ≥ env.DAILY_COST_LIMIT_USD ∧ hit_of env dt = none ∧
      ∃ res, env.adapter = .ok res ∧ pyStrip res.text ≠ "" ∧
        p = ok_payload env dt (t_used_of env dt) res ∧
        eff = ⟨reads_of env dt,
               (if res.model = env.PRIMARY_MODEL ∧ p.status = "ok" then
                  Cache.set env.cache0 (cache_key env dt) p
                else env.cache0),
               [call_of env dt], [p]⟩) := by
  simp only [generate_poem, hz] at h
  by_cases hb : env.today_cost ≥ env.DAILY_COST_LIMIT_USD
  · rw [if_pos hb] at h
    simp only [Except.ok.injEq, Prod.mk.injEq] at h
    obtain ⟨hp, he⟩ := h
    exact Or.inl ⟨hb, hp.symm, by rw [← hp, ← he]⟩
  · rw [if_neg hb] at h
    cases hhit : hit_of env dt with
    | some cp =>
        rw [hhit] at h
        simp only [Except.ok.injEq, Prod.mk.injEq] at h
        obtain ⟨hp, he⟩ := h
        exact Or.inr (Or.inl ⟨hb, cp, rfl, hp.symm, he.symm⟩)
    | none =>
        rw [hhit] at h
        cases ha : env.adapter with
        | raise =>
            rw [ha] at h
            dsimp only at h
            simp only [Except.ok.injEq, Prod.mk.injEq] at h
            obtain ⟨hp, he⟩ := h
            exact Or.inr (Or.inr (Or.inl ⟨hb, rfl, rfl, hp.symm, by rw [← hp, ← he]⟩))
        | ok res =>
            rw [ha] at h
            dsimp only at h
            by_cases ht : pyStrip res.text = ""
            · rw [if_pos ht] at h
              simp only [Except.ok.injEq, Prod.mk.injEq] at h
              obtain ⟨hp, he⟩ := h
              exact Or.inr (Or.inr (Or.inr (Or.inl
                ⟨hb, rfl, res, rfl, ht, hp.symm, by rw [← hp, ← he]⟩)))
            · rw [if_neg ht] at h
              simp only [Except.ok.injEq, Prod.mk.injEq] at h
              obtain ⟨hp, he⟩ := h
              exact Or.inr (Or.inr (Or.inr (Or.inr
                ⟨hb, rfl, res, rfl, ht, hp.symm, by rw [← hp, ← he]⟩)))

/-- An invalid zone is the only way `generate_poem` escapes with an
exception. -/
theorem generate_poem_total (env : PoemEnv) (dt : LocalDT)
    (hz : env.zone = some dt) : ∃ p eff, generate_poem env = .ok (p, eff) := by
  simp only [generate_poem, hz]
  by_cases hb : env.today_cost ≥ env.DAILY_COST_LIMIT_USD
  · rw [if_pos hb]; exact ⟨_, _, rfl⟩
  · rw [if_neg hb]
    cases hhit : hit_of env dt with
    | some cp => exact ⟨_, _, rfl⟩
    | none =>
        cases ha : env.adapter with
        | raise => exact ⟨_, _, rfl⟩
        | ok res =>
            dsimp only
            by_cases ht : pyStrip res.text = ""
            · rw [if_pos ht]; exact ⟨_, _, rfl⟩
            · rw [if_neg ht]; exact ⟨_, _, rfl⟩

/-- The seven daypart labels listed in the comment block of the source. -/
def DAYPART_LABELS : List String :=
  ["pre-dawn", "early morning", "morning", "midday", "afternoon", "evening",
   "late night"]

/-- The six named minute bands `(lo, hi, label)` of `daypart_for`; minutes
outside them fall to the "late night" wraparound default. -/
def NAMED_BANDS : List (ℕ × ℕ × String) :=
  [(240, 359, "pre-dawn"), (360, 479, "early morning"), (480, 689, "morning"),
   (690, 809, "midday"), (810, 1019, "afternoon"), (1020, 1229, "evening")]

/-! ## Shared concrete scenario pieces (used by witnesses and
counterexamples) -/

def demoCache : CacheState :=
  { localCache := [], redisConfigured := false, redisDisabled := false,
    redisStore := [] }

def demoDT : LocalDT := { ymdhm := "2026-10-12T09:15", hour := 9, minute := 15 }

def demoRes : LLMResult :=
  { text := "Nine fifteen, the kettle sings.", model := "gpt-5",
    response_id := some "resp_1", prompt_tokens := 120,
    completion_tokens := 40, reasoning_tokens := 0, latency_ms := 900,
    retry_count := 0, params_used := [("temperature", .bool false)] }

def demoEnv : PoemEnv :=
  { PRIMARY_MODEL := "gpt-5", SECONDARY_MODEL := "gpt-5-mini",
    EXPERIMENT_MODE := "single", AB_SPLIT := 20,
    DAILY_COST_LIMIT_USD := 5, tone := .Stoic, tz := "America/Chicago",
    fmt := "auto", force_new := false, req_id := "cv_0123456789ab",
    zone := some demoDT, utc_now_iso := "2026-10-12T14:15:02+00:00",
    today_cost := 0,
    directive := ("For this poem only: set it at a library.", "place"),
    adapter := .ok demoRes, cache0 := demoCache,
    envVars := fun _ => "", parseFloat := fun _ => none }

def dfltPayload : Payload := budget_payload demoEnv demoDT ""

def dfltEffects : Effects := ⟨[], demoCache, [], []⟩

def payload_of (r : Except Unit (Payload × Effects)) (d : Payload) : Payload :=
  match r with
  | .ok (p, _) => p
  | .error _ => d

def effects_of (r : Except Unit (Payload × Effects)) (d : Effects) : Effects :=
  match r with
  | .ok (_, e) => e
  | .error _ => d

/-- The only writer of the cache is `generate_poem`, which stores payloads
with `status = "ok"` only; a cache state is well-formed when every entry the
sync `get` can return has that status. -/
def CacheState.entriesOk (st : CacheState) : Prop :=
  ∀ k p, Cache.get st k = some p → p.status = "ok"

/-! ## Claims -/

/-- C1: the claim expects `allow` to return a boolean that is `True` for the
first `N` calls of a minute bucket for every identity kind.  The code
violates this for the `ip` kind: the body of `allow_ip` ends right after
computing the counter key (its counting logic sits unreachable after the
`return` of `allow_token`), so Python returns `None` — not a boolean, and
not `True` — for every non-empty ip, already on the very first call. -/
theorem C1_allow_ip_returns_none :
    (allow_ip 60 (some "203.0.113.7") 30
      { mem_user := [], mem_ip := [], mem_token := [] }).1 = none := rfl

/-- C2: with the recorded cost of today at or above the ceiling, `generate_poem`
returns a `"fallback"` payload with zero cost, performs no adapter call and
no cache read, and still emits exactly the event for that payload. -/
theorem C2_budget_gate (env : PoemEnv) (dt : LocalDT) (p : Payload)
    (eff : Effects) (hz : env.zone = some dt)
    (hb : env.today_cost ≥ env.DAILY_COST_LIMIT_USD)
    (h : generate_poem env = .ok (p, eff)) :
    p.status = "fallback" ∧ p.cost_usd = 0 ∧ eff.adapterCalls = [] ∧
    eff.cacheReads = [] ∧ eff.events = [p] := by
  rcases generate_poem_inv env dt p eff hz h with
    ⟨_, hp, he⟩ | ⟨hnb, _⟩ | ⟨hnb, _⟩ | ⟨hnb, _⟩ | ⟨hnb, _⟩
  · subst hp; subst he; exact ⟨rfl, rfl, rfl, rfl, rfl⟩
  all_goals exact absurd hb hnb

def envBudget : PoemEnv := { demoEnv with today_cost := 7 }

def pBudget : Payload := payload_of (generate_poem envBudget) dfltPayload

def effBudget : Effects := effects_of (generate_poem envBudget) dfltEffects

theorem C2_budget_gate_witness :
    pBudget.status = "fallback" ∧ pBudget.cost_usd = 0 ∧
    effBudget.adapterCalls = [] ∧ effBudget.cacheReads = [] ∧
    effBudget.events = [pBudget] :=
  C2_budget_gate envBudget demoDT pBudget effBudget rfl
    (by norm_num [envBudget, demoEnv]) (by rfl)

/-- C3: a `generate_poem` result whose status is not `"ok"` carries zero
cost — on the budget-gate, empty-text and exception paths directly, and on
the cache-hit path because only `"ok"` payloads are ever written to the
cache (hypothesis `entriesOk`). -/
theorem C3_nonok_zero_cost (env : PoemEnv) (dt : LocalDT) (p : Payload)
    (eff : Effects) (hz : env.zone = some dt)
    (hcache : env.cache0.entriesOk)
    (h : generate_poem env = .ok (p, eff)) :
    p.status ≠ "ok" → p.cost_usd = 0 := by
  intro hs
  rcases generate_poem_inv env dt p eff hz h with
    ⟨_, hp, _⟩ | ⟨_, cp, hcp, hp, _⟩ | ⟨_, _, _, hp, _⟩ |
    ⟨_, _, res, _, _, hp, _⟩ | ⟨_, _, res, _, _, hp, _⟩
  · subst hp; rfl
  · exfalso
    apply hs
    have hget : Cache.get env.cache0 (cache_key env dt) = some cp := by
      unfold hit_of at hcp
      by_cases hf : env.force_new
      · rw [if_pos hf] at hcp; cases hcp
      · rwa [if_neg hf] at hcp
    have hok := hcache _ _ hget
    rw [hp]
    exact hok
  · subst hp; rfl
  · subst hp; rfl
  · subst hp; exact absurd rfl hs

def envEmptyText : PoemEnv :=
  { demoEnv with adapter := .ok { demoRes with text := "   " } }

theorem C3_nonok_zero_cost_witness :
    (payload_of (generate_poem envEmptyText) dfltPayload).cost_usd = 0 :=
  C3_nonok_zero_cost envEmptyText demoDT
    (payload_of (generate_poem envEmptyText) dfltPayload)
    (effects_of (generate_poem envEmptyText) dfltEffects)
    rfl (fun _ _ hx => nomatch hx) (by rfl) (by decide)

/-- C6: every minute-of-day maps to one of the seven labels; the six named
bands are pairwise non-overlapping, each band forces its own label, and the
minutes outside every named band are exactly the wraparound span
20:30–03:59 (1230–1439 and 0–239), which maps to "late night". -/
theorem C6_daypart_partition : ∀ m : ℕ, m ≤ 1439 →
    (daypart_for m ∈ DAYPART_LABELS ∧
    (∀ b ∈ NAMED_BANDS, (b.1 ≤ m ∧ m ≤ b.2.1) → daypart_for m = b.2.2) ∧
    (∀ b ∈ NAMED_BANDS, ∀ b' ∈ NAMED_BANDS,
      (b.1 ≤ m ∧ m ≤ b.2.1) → (b'.1 ≤ m ∧ m ≤ b'.2.1) → b = b') ∧
    ((∀ b ∈ NAMED_BANDS, ¬(b.1 ≤ m ∧ m ≤ b.2.1)) ↔ (1230 ≤ m ∨ m ≤ 239)) ∧
    ((1230 ≤ m ∨ m ≤ 239) ↔ daypart_for m = "late night")) := by
  intro m hm
  refine ⟨?_, ?_, ?_, ?_, ?_⟩
  · unfold daypart_for
    split_ifs <;> simp [DAYPART_LABELS]
  · intro b hb
    fin_cases hb <;>
      (intro hband; unfold daypart_for; split_ifs <;> first | rfl | omega)
  · intro b hb b' hb'
    fin_cases hb <;> fin_cases hb' <;>
      (intro hband hband'; dsimp only at hband hband'; first | rfl | omega)
  · simp [NAMED_BANDS, List.forall_mem_cons]
    omega
  · unfold daypart_for
    split_ifs <;> constructor <;> intro hx <;>
      first | rfl | omega | exact absurd hx (by decide)

theorem C6_daypart_partition_witness :
    daypart_for 555 ∈ DAYPART_LABELS ∧
    ((1230 ≤ 555 ∨ 555 ≤ 239) ↔ daypart_for 555 = "late night") :=
  ⟨(C6_daypart_partition 555 (by norm_num)).1,
   (C6_daypart_partition 555 (by norm_num)).2.2.2.2⟩

/-- C10: an unresolvable timezone makes `generate_poem` raise (the
`ZoneInfo` failure at line 99 precedes the budget gate, the cache check and
the guarded region), while any request whose timezone resolves returns a
GenerationResult normally — the never-raises guarantee only covers the
later stages. -/
theorem C10_invalid_timezone (env env2 : PoemEnv) (dt2 : LocalDT)
    (hz : env.zone = none) (hz2 : env2.zone = some dt2) :
    generate_poem env = .error () ∧
    ∃ p eff, generate_poem env2 = .ok (p, eff) := by
  constructor
  · simp only [generate_poem, hz]
  · exact generate_poem_total env2 dt2 hz2

def envNoZone : PoemEnv := { demoEnv with zone := none }

theorem C10_invalid_timezone_witness :
    generate_poem envNoZone = .error () ∧
    ∃ p eff, generate_poem demoEnv = .ok (p, eff) :=
  C10_invalid_timezone envNoZone demoEnv demoDT rfl rfl

/-- Writing a key then looking it up yields the written value. -/
theorem lookup_assocSet {β : Type} (l : List (String × β)) (k : String)
    (v : β) : (assocSet l k v).lookup k = some v := by
  induction l with
  | nil => simp [assocSet]
  | cons kv rest ih =>
      by_cases hk : kv.1 == k
      · simp [assocSet, hk]
      · obtain ⟨k', v'⟩ := kv
        simp only at hk
        have hkk : (k == k') = false := by
          rw [beq_eq_false_iff_ne]
          exact fun he => hk (by simp [he])
        simp [assocSet, hk, List.lookup, ih, hkk]

/-- `cost_usd` evaluates to zero when both price lookups come back empty —
the heart of C9. -/
theorem cost_usd_zero_of_missing (envv : String → String)
    (pf : String → Option ℚ) (model : String) (pt ct : ℕ)
    (hP : _price_for envv pf model "PROMPT" = none)
    (hC : _price_for envv pf model "COMPLETION" = none) :
    cost_usd envv pf model pt ct = 0 := by
  unfold cost_usd get_prices
  rw [hP, hC]
  simp only [Option.getD_none]
  norm_num [pyRound6, round_zero]

/-- The no-prices environment: every pricing env var unset. -/
def envPriceless : PoemEnv := demoEnv

/-- C9: missing or unparsable price entries make `cost_usd` return `0.0`
without raising; consequently an `"ok"` GenerationResult can carry
`cost_usd = 0` with nonzero token counts, and the event it records
contributes nothing to the daily cost sum. -/
theorem C9_missing_prices_zero_cost (envv : String → String)
    (pf : String → Option ℚ) (model : String) (pt ct : ℕ)
    (hP : _price_for envv pf model "PROMPT" = none)
    (hC : _price_for envv pf model "COMPLETION" = none) :
    cost_usd envv pf model pt ct = 0 ∧
    ∃ (env : PoemEnv) (p : Payload) (eff : Effects),
      generate_poem env = .ok (p, eff) ∧ p.status = "ok" ∧
      p.prompt_tokens ≠ 0 ∧ p.completion_tokens ≠ 0 ∧ p.cost_usd = 0 ∧
      (eff.events.map Payload.cost_usd).sum = 0 := by
  refine ⟨cost_usd_zero_of_missing envv pf model pt ct hP hC,
    envPriceless, payload_of (generate_poem envPriceless) dfltPayload,
    effects_of (generate_poem envPriceless) dfltEffects,
    by rfl, rfl, by decide, by decide, ?_, ?_⟩
  · exact cost_usd_zero_of_missing _ _ _ _ _ rfl rfl
  · show ([(payload_of (generate_poem envPriceless) dfltPayload)].map
      Payload.cost_usd).sum = 0
    simp only [List.map_cons, List.map_nil, List.sum_cons, List.sum_nil,
      add_zero]
    exact cost_usd_zero_of_missing _ _ _ _ _ rfl rfl

theorem C9_missing_prices_zero_cost_witness :
    cost_usd (fun _ => "") (fun _ => none) "gpt-5-mini" 7 9 = 0 :=
  (C9_missing_prices_zero_cost (fun _ => "") (fun _ => none) "gpt-5-mini"
    7 9 rfl rfl).1

/-- A payload sitting (only) in the shared store. -/
def sharedStoredPayload : Payload :=
  { poem := "An earlier poem from the shared store.", model := some "gpt-5",
    generated_at_iso := "2026-10-12T14:15:00+00:00", time_used := "9:15 AM",
    tone := .Stoic, cached := false, status := "ok", prompt_tokens := 100,
    completion_tokens := 30, reasoning_tokens := 0, cost_usd := 0,
    request_id := "cv_prior0000001", timezone := "America/Chicago",
    retry_count := 0, params_used := none, daypart := "morning",
    response_id := some "resp_prior", latency_ms := some 800,
    directive_id := "place",
    extra_hint := "For this poem only: set it at a library." }

/-- Shared store configured and holding the cache key of the request; the local
TTL cache empty. -/
def sharedOnlyCache : CacheState :=
  { localCache := [], redisConfigured := true, redisDisabled := false,
    redisStore := [("2026-10-12T09:15|America/Chicago|Stoic|gpt-5",
                    sharedStoredPayload)] }

def envShared : PoemEnv := { demoEnv with cache0 := sharedOnlyCache }

/-- C8 counterexample: with a shared store configured and already holding
the entry for this exact cache key (the async `aget` would return it),
the cache check of `generate_poem` — the legacy sync `get` — misses, a fresh
generation is returned (`cached = false`, a new request id), and the
subsequent cache write lands in the process-local cache while the shared
store is left untouched.  So the claim that the orchestration get/set use
the shared store when configured is false. -/
theorem C8_counterexample :
    Cache.aget envShared.cache0 (cache_key envShared demoDT) =
      some sharedStoredPayload ∧
    (payload_of (generate_poem envShared) dfltPayload).cached = false ∧
    (payload_of (generate_poem envShared) dfltPayload).request_id ≠
      sharedStoredPayload.request_id ∧
    (effects_of (generate_poem envShared) dfltEffects).cacheAfter.redisStore =
      envShared.cache0.redisStore ∧
    (effects_of (generate_poem envShared)
        dfltEffects).cacheAfter.localCache.length = 1 := by
  refine ⟨by rfl, by rfl, by decide, by rfl, by rfl⟩

/-- C8 amended: `generate_poem` performs its cache check and write through
the synchronous module API, which touches only the process-local TTL cache:
the shared store is never read (a hit happens exactly when the local cache
holds the key) and never written, whatever the configuration flags say. -/
theorem C8_amended (env : PoemEnv) (dt : LocalDT) (p : Payload)
    (eff : Effects) (hz : env.zone = some dt)
    (h : generate_poem env = .ok (p, eff)) :
    eff.cacheAfter.redisStore = env.cache0.redisStore ∧
    eff.cacheAfter.redisConfigured = env.cache0.redisConfigured ∧
    (env.force_new = false →
      ¬ env.today_cost ≥ env.DAILY_COST_LIMIT_USD →
      ∀ cp, Cache.get env.cache0 (cache_key env dt) = some cp →
        p = { cp with cached := true }) := by
  rcases generate_poem_inv env dt p eff hz h with
    ⟨hb, _, he⟩ | ⟨hb, cp, hcp, hp, he⟩ | ⟨hb, hmiss, _, _, he⟩ |
    ⟨hb, hmiss, res, _, _, _, he⟩ | ⟨hb, hmiss, res, _, _, _, he⟩
  · subst he
    exact ⟨rfl, rfl, fun _ hb2 _ _ => absurd hb hb2⟩
  · subst he
    refine ⟨rfl, rfl, fun hf _ cp' hcp' => ?_⟩
    have : hit_of env dt = some cp' := by
      unfold hit_of
      rw [if_neg (by simp [hf])]
      exact hcp'
    rw [hcp] at this
    cases this
    exact hp
  · subst he
    refine ⟨rfl, rfl, fun hf _ cp' hcp' => ?_⟩
    exfalso
    have : hit_of env dt = some cp' := by
      unfold hit_of
      rw [if_neg (by simp [hf])]
      exact hcp'
    rw [hmiss] at this
    cases this
  · subst he
    refine ⟨rfl, rfl, fun hf _ cp' hcp' => ?_⟩
    exfalso
    have : hit_of env dt = some cp' := by
      unfold hit_of
      rw [if_neg (by simp [hf])]
      exact hcp'
    rw [hmiss] at this
    cases this
  · subst he
    refine ⟨?_, ?_, fun hf _ cp' hcp' => ?_⟩
    · by_cases hw : res.model = env.PRIMARY_MODEL ∧ p.status = "ok"
      · rw [if_pos hw]; rfl
      · rw [if_neg hw]
    · by_cases hw : res.model = env.PRIMARY_MODEL ∧ p.status = "ok"
      · rw [if_pos hw]; rfl
      · rw [if_neg hw]
    · exfalso
      have : hit_of env dt = some cp' := by
        unfold hit_of
        rw [if_neg (by simp [hf])]
        exact hcp'
      rw [hmiss] at this
      cases this

theorem C8_amended_witness :
    (effects_of (generate_poem envShared) dfltEffects).cacheAfter.redisStore =
      envShared.cache0.redisStore :=
  (C8_amended envShared demoDT
    (payload_of (generate_poem envShared) dfltPayload)
    (effects_of (generate_poem envShared) dfltEffects) rfl (by rfl)).1

/-- First call of the C4 counterexample: upstream raises, so nothing is
cached. -/
def envA1 : PoemEnv := { demoEnv with adapter := .raise }

/-- Second call, same minute/timezone/tone/primary model, `forceNew=false`,
fresh per-call request id, cache state chained from the first call. -/
def envA2 : PoemEnv :=
  { demoEnv with
    adapter := .raise, req_id := "cv_ba9876543210",
    cache0 := (effects_of (generate_poem envA1) dfltEffects).cacheAfter }

/-- C4 counterexample: two same-minute calls with identical timezone, tone
and primary model and `forceNew=false` — but with a failing upstream — both
return `cached = false` (never `true` on the second) and differ in
`request_id`, so the payloads are not byte-identical-except-`cached`.  The
claimed idempotence only holds when the first call actually cached an
`"ok"` primary-model result. -/
theorem C4_counterexample :
    (payload_of (generate_poem envA1) dfltPayload).cached = false ∧
    (payload_of (generate_poem envA2) dfltPayload).cached = false ∧
    (payload_of (generate_poem envA1) dfltPayload).request_id ≠
      (payload_of (generate_poem envA2) dfltPayload).request_id := by
  refine ⟨by rfl, by rfl, by decide⟩

/-- C4 amended: two same-minute calls with the same cache key agree up to
the `cached` flag provided the first call produced an `"ok"` result from
the primary model without a cache hit (so the entry was written), and the
second call passes the budget gate with `forceNew=false`. -/
theorem C4_amended (env1 env2 : PoemEnv) (dt1 dt2 : LocalDT)
    (p1 : Payload) (eff1 : Effects) (p2 : Payload) (eff2 : Effects)
    (hz1 : env1.zone = some dt1) (hz2 : env2.zone = some dt2)
    (h1 : generate_poem env1 = .ok (p1, eff1))
    (h2 : generate_poem env2 = .ok (p2, eff2))
    (hkey : cache_key env2 dt2 = cache_key env1 dt1)
    (hchain : env2.cache0 = eff1.cacheAfter)
    (hf2 : env2.force_new = false)
    (hb2 : ¬ env2.today_cost ≥ env2.DAILY_COST_LIMIT_USD)
    (hok : p1.status = "ok") (hcf : p1.cached = false)
    (hprim : p1.model = some env1.PRIMARY_MODEL) :
    p2 = { p1 with cached := true } := by
  -- First call: only the successful-generation branch matches `hok`/`hcf`.
  rcases generate_poem_inv env1 dt1 p1 eff1 hz1 h1 with
    ⟨_, hp1, _⟩ | ⟨_, cp, _, hp1, _⟩ | ⟨_, _, _, hp1, _⟩ |
    ⟨_, _, res, _, _, hp1, _⟩ | ⟨_, _, res, hres, _, hp1, he1⟩
  · rw [hp1] at hok; simp [budget_payload] at hok
  · rw [hp1] at hcf; simp at hcf
  · rw [hp1] at hok; simp [error_payload] at hok
  · rw [hp1] at hok; simp [empty_text_payload] at hok
  · -- the entry was written under the shared key
    have hm : res.model = env1.PRIMARY_MODEL := by
      rw [hp1] at hprim
      exact Option.some.inj hprim
    have hcache2 : env2.cache0 =
        Cache.set env1.cache0 (cache_key env1 dt1) p1 := by
      rw [hchain, he1, if_pos ⟨hm, hok⟩]
    have hhit2 : hit_of env2 dt2 = some p1 := by
      unfold hit_of
      rw [if_neg (by simp [hf2]), hkey, hcache2]
      unfold Cache.get Cache.set
      exact lookup_assocSet _ _ _
    -- Second call: necessarily the cache-hit branch.
    rcases generate_poem_inv env2 dt2 p2 eff2 hz2 h2 with
      ⟨hb, _, _⟩ | ⟨_, cp2, hcp2, hp2, _⟩ | ⟨_, hmiss, _, _, _⟩ |
      ⟨_, hmiss, _, _, _, _, _⟩ | ⟨_, hmiss, _, _, _, _, _⟩
    · exact absurd hb hb2
    · rw [hhit2] at hcp2
      cases hcp2
      exact hp2
    all_goals (rw [hhit2] at hmiss; cases hmiss)

/-- Second call of the witness run: same minute and key, fresh request id,
cache chained from a successful first call. -/
def envB2 : PoemEnv :=
  { demoEnv with
    req_id := "cv_ba9876543210",
    cache0 := (effects_of (generate_poem demoEnv) dfltEffects).cacheAfter }

theorem C4_amended_witness :
    payload_of (generate_poem envB2) dfltPayload =
      { payload_of (generate_poem demoEnv) dfltPayload with cached := true } :=
  C4_amended demoEnv envB2 demoDT demoDT
    (payload_of (generate_poem demoEnv) dfltPayload)
    (effects_of (generate_poem demoEnv) dfltEffects)
    (payload_of (generate_poem envB2) dfltPayload)
    (effects_of (generate_poem envB2) dfltEffects)
    rfl rfl (by rfl) (by rfl) rfl rfl rfl (by decide) rfl rfl rfl

/-! ## Adapter retry lemmas (C5) -/

theorem lookup_none_of_not_key (l : List (String × PVal)) (k : String)
    (h : k ∉ l.map Prod.fst) : l.lookup k = none := by
  induction l with
  | nil => rfl
  | cons kv rest ih =>
      simp only [List.map_cons, List.mem_cons, not_or] at h
      obtain ⟨h1, h2⟩ := h
      have hkk : (k == kv.1) = false := by
        rw [beq_eq_false_iff_ne]; exact h1
      simp [List.lookup, hkk, ih h2]

theorem retried_call_trace (A : AdapterEnv) (model : String) (kw kw2 : Kwargs)
    (pu2 : List (String × PVal)) :
    (retried_call A model kw kw2 pu2).2 = [kw, kw2] := by
  unfold retried_call
  cases A.upstream kw2 <;> rfl

theorem retried_call_ok (A : AdapterEnv) (model : String) (kw kw2 : Kwargs)
    (pu2 : List (String × PVal)) (r : LLMResult)
    (h : (retried_call A model kw kw2 pu2).1 = .ok r) :
    r.retry_count = 1 ∧ r.params_used = pu2 := by
  unfold retried_call at h
  cases hu : A.upstream kw2 with
  | ok resp => rw [hu] at h; dsimp only at h; cases h; exact ⟨rfl, rfl⟩
  | badRequest m2 => rw [hu] at h; dsimp only at h; cases h
  | failure => rw [hu] at h; dsimp only at h; cases h

theorem retried_call_reject (A : AdapterEnv) (model : String)
    (kw kw2 : Kwargs) (pu2 : List (String × PVal)) (m2 : String)
    (h : A.upstream kw2 = .badRequest m2) :
    (retried_call A model kw kw2 pu2).1 = .error (.badRequest m2) := by
  unfold retried_call
  rw [h]

/-- Popping `"verbosity"` leaves no `"verbosity"` binding in any
`params_used` the adapter can build. -/
theorem build_pu_pop_verbosity (A : AdapterEnv) (model prompt : String)
    (mt : ℕ) (temp : Option ℚ) :
    (assocPop (build_kwargs A model prompt mt temp).2 "verbosity").lookup
      "verbosity" = none := by
  simp only [build_kwargs]
  cases temp <;> split_ifs <;> simp [assocSet, assocPop, List.lookup]

/-- Popping `"reasoning_effort"` likewise leaves no binding for it. -/
theorem build_pu_pop_reasoning (A : AdapterEnv) (model prompt : String)
    (mt : ℕ) (temp : Option ℚ) :
    (assocPop (build_kwargs A model prompt mt temp).2
      "reasoning_effort").lookup "reasoning_effort" = none := by
  simp only [build_kwargs]
  cases temp <;> split_ifs <;> simp [assocSet, assocPop, List.lookup]

/-- C5 amended: a recognized unsupported-parameter rejection strips exactly
the offending parameter and retries once (`retry_count = 1`, two upstream
calls, a second rejection propagating untouched); but only `temperature` is
re-marked `false` in `params_used` — a dropped verbosity or reasoning-effort
entry is removed from `params_used` (absent), not set to `false`. -/
theorem C5_amended (A : AdapterEnv) (model prompt : String) (mt : ℕ)
    (temp : Option ℚ) (msg : String)
    (hrej : A.upstream (build_kwargs A model prompt mt temp).1 =
      .badRequest msg)
    (hmsg : (strContains msg "Unsupported parameter" ||
             strContains msg "is not supported") = true) :
    ((strContains msg "temperature" &&
        (build_kwargs A model prompt mt temp).1.temperature.isSome) = true →
      (OpenAIAdapter.generate A model prompt mt temp).2 =
        [(build_kwargs A model prompt mt temp).1,
         { (build_kwargs A model prompt mt temp).1 with temperature := none }] ∧
      (∀ r, (OpenAIAdapter.generate A model prompt mt temp).1 = .ok r →
        r.retry_count = 1 ∧
        r.params_used.lookup "temperature" = some (.bool false)) ∧
      (∀ m2, A.upstream
          { (build_kwargs A model prompt mt temp).1 with temperature := none } =
          .badRequest m2 →
        (OpenAIAdapter.generate A model prompt mt temp).1 =
          .error (.badRequest m2))) ∧
    ((strContains msg "temperature" &&
        (build_kwargs A model prompt mt temp).1.temperature.isSome) = false →
     ((strContains msg "text" || strContains msg "verbosity") &&
        (build_kwargs A model prompt mt temp).1.text.isSome) = true →
      (OpenAIAdapter.generate A model prompt mt temp).2 =
        [(build_kwargs A model prompt mt temp).1,
         { (build_kwargs A model prompt mt temp).1 with text := none }] ∧
      (∀ r, (OpenAIAdapter.generate A model prompt mt temp).1 = .ok r →
        r.retry_count = 1 ∧ r.params_used.lookup "verbosity" = none) ∧
      (∀ m2, A.upstream
          { (build_kwargs A model prompt mt temp).1 with text := none } =
          .badRequest m2 →
        (OpenAIAdapter.generate A model prompt mt temp).1 =
          .error (.badRequest m2))) ∧
    ((strContains msg "temperature" &&
        (build_kwargs A model prompt mt temp).1.temperature.isSome) = false →
     ((strContains msg "text" || strContains msg "verbosity") &&
        (build_kwargs A model prompt mt temp).1.text.isSome) = false →
     ((strContains msg "reasoning" || strContains msg "effort") &&
        (build_kwargs A model prompt mt temp).1.reasoning.isSome) = true →
      (OpenAIAdapter.generate A model prompt mt temp).2 =
        [(build_kwargs A model prompt mt temp).1,
         { (build_kwargs A model prompt mt temp).1 with reasoning := none }] ∧
      (∀ r, (OpenAIAdapter.generate A model prompt mt temp).1 = .ok r →
        r.retry_count = 1 ∧
        r.params_used.lookup "reasoning_effort" = none) ∧
      (∀ m2, A.upstream
          { (build_kwargs A model prompt mt temp).1 with reasoning := none } =
          .badRequest m2 →
        (OpenAIAdapter.generate A model prompt mt temp).1 =
          .error (.badRequest m2))) := by
  refine ⟨fun hT => ?_, fun hnT hTx => ?_, fun hnT hnTx hR => ?_⟩
  · have hg : OpenAIAdapter.generate A model prompt mt temp =
        retried_call A model (build_kwargs A model prompt mt temp).1
          { (build_kwargs A model prompt mt temp).1 with temperature := none }
          (assocSet (build_kwargs A model prompt mt temp).2 "temperature"
            (.bool false)) := by
      simp [OpenAIAdapter.generate, hrej, hmsg, hT]
    refine ⟨by rw [hg]; exact retried_call_trace _ _ _ _ _, ?_, ?_⟩
    · intro r hr
      rw [hg] at hr
      obtain ⟨h1, h2⟩ := retried_call_ok _ _ _ _ _ _ hr
      exact ⟨h1, by rw [h2]; exact lookup_assocSet _ _ _⟩
    · intro m2 hm2
      rw [hg]
      exact retried_call_reject _ _ _ _ _ _ hm2
  · have hg : OpenAIAdapter.generate A model prompt mt temp =
        retried_call A model (build_kwargs A model prompt mt temp).1
          { (build_kwargs A model prompt mt temp).1 with text := none }
          (assocPop (build_kwargs A model prompt mt temp).2 "verbosity") := by
      simp [OpenAIAdapter.generate, hrej, hmsg, hnT, hTx]
    refine ⟨by rw [hg]; exact retried_call_trace _ _ _ _ _, ?_, ?_⟩
    · intro r hr
      rw [hg] at hr
      obtain ⟨h1, h2⟩ := retried_call_ok _ _ _ _ _ _ hr
      exact ⟨h1, by rw [h2]; exact build_pu_pop_verbosity _ _ _ _ _⟩
    · intro m2 hm2
      rw [hg]
      exact retried_call_reject _ _ _ _ _ _ hm2
  · have hg : OpenAIAdapter.generate A model prompt mt temp =
        retried_call A model (build_kwargs A model prompt mt temp).1
          { (build_kwargs A model prompt mt temp).1 with reasoning := none }
          (assocPop (build_kwargs A model prompt mt temp).2
            "reasoning_effort") := by
      simp [OpenAIAdapter.generate, hrej, hmsg, hnT, hnTx, hR]
    refine ⟨by rw [hg]; exact retried_call_trace _ _ _ _ _, ?_, ?_⟩
    · intro r hr
      rw [hg] at hr
      obtain ⟨h1, h2⟩ := retried_call_ok _ _ _ _ _ _ hr
      exact ⟨h1, by rw [h2]; exact build_pu_pop_reasoning _ _ _ _ _⟩
    · intro m2 hm2
      rw [hg]
      exact retried_call_reject _ _ _ _ _ _ hm2

def llm_of (r : Except AdapterError LLMResult) (d : LLMResult) : LLMResult :=
  match r with
  | .ok x => x
  | .error _ => d

/-- Upstream that rejects the `text` (verbosity) block on the first call and
accepts once it is stripped. -/
def adEnvCE : AdapterEnv :=
  { getenv := fun k => if k = "VERBOSITY" then some "low" else none,
    upstream := fun kw =>
      if kw.text.isSome then
        .badRequest
          "Unsupported parameter: \x27text.verbosity\x27 is not supported with this model."
      else
        .ok { text := "A poem.", rid := some "r2", input_tokens := 10,
              output_tokens := 5, reasoning_tokens := 0 },
    latency := 40 }

def resCE : LLMResult :=
  llm_of (OpenAIAdapter.generate adEnvCE "gpt-5" "write a poem" 500 none).1
    demoRes

/-- C5 counterexample: a first-call rejection of the verbosity (`text`)
block is retried once (`retry_count = 1`) exactly as claimed, but the
dropped parameter is **not** marked `false` in `params_used` — the
`"verbosity"` key is removed outright, so its lookup is `none`, refuting
the claim that the dropped parameter reads `false` in the realized
parameter set. -/
theorem C5_counterexample :
    (OpenAIAdapter.generate adEnvCE "gpt-5" "write a poem" 500 none).1 =
      .ok resCE ∧
    resCE.retry_count = 1 ∧
    resCE.params_used.lookup "verbosity" = none ∧
    resCE.params_used.lookup "verbosity" ≠ some (.bool false) := by
  refine ⟨rfl, rfl, rfl, by decide⟩

/-- Upstream that rejects `temperature` on the first call and accepts once
it is stripped. -/
def adEnvW : AdapterEnv :=
  { getenv := fun _ => none,
    upstream := fun kw =>
      if kw.temperature.isSome then
        .badRequest
          "Unsupported parameter: \x27temperature\x27 is not supported with this model."
      else
        .ok { text := "A poem.", rid := some "r1", input_tokens := 12,
              output_tokens := 6, reasoning_tokens := 0 },
    latency := 35 }

def resW : LLMResult :=
  llm_of (OpenAIAdapter.generate adEnvW "gpt-4o" "write a poem" 500
    (some 1)).1 demoRes

theorem C5_amended_witness :
    resW.retry_count = 1 ∧
    resW.params_used.lookup "temperature" = some (.bool false) :=
  ((C5_amended adEnvW "gpt-4o" "write a poem" 500 (some 1)
      "Unsupported parameter: \x27temperature\x27 is not supported with this model."
      rfl rfl).1 rfl).2.1 resW rfl

/-! ## Micro-directive selector claims (C7) -/

/-- The candidate the salted `_pick_one` deterministically selects. -/
def salted_candidate (sha : String → ℕ) (m : ℕ) (tone salt : String) :
    Directive :=
  _hash_choice sha (md_candidates m tone) salt

/-- C7 amended: with a salt, candidate selection is deterministic — whenever
the salted candidate is not in the recent-ids history, `pick` returns its
id, a value depending only on `(minuteOfDay, tone, salt)` and in particular
independent of the RNG stream; but the full `(text, directiveId)` pair is
not reproducible across repeated calls, because the rendered text draws an
unseeded random word from the bank and the recent-history fallback resorts
to unseeded `random.choice` (see the counterexample). -/
theorem C7_amended (sha : String → ℕ) (m : ℕ) (tone salt : String)
    (st : MDState)
    (h : st.recent.contains (salted_candidate sha m tone salt).id = false) :
    (pick sha m tone (some salt) st).1.2 =
      (salted_candidate sha m tone salt).id := by
  show (pick_loop sha (some salt) (md_candidates m tone) (Nat.succ 4)
    st).1.2 = _
  simp only [pick_loop]
  rw [show (_hash_choice sha (md_candidates m tone) salt) =
    salted_candidate sha m tone salt from rfl]
  rw [h]
  rfl

def shaW : String → ℕ := fun s => s.data.length

def stW : MDState := { recent := [], rng := [3, 4] }

theorem C7_amended_witness :
    (pick shaW 0 "Stoic" (some "cv_seed") stW).1.2 =
      (salted_candidate shaW 0 "Stoic" "cv_seed").id :=
  C7_amended shaW 0 "Stoic" "cv_seed" stW rfl

/-- Salted `pick_loop` only consults the hash through `_hash_choice`, so two
hash functions agreeing there are interchangeable. -/
theorem pick_hash_congr (sha1 sha2 : String → ℕ) (salt : String)
    (cands : List Directive)
    (h : _hash_choice sha1 cands salt = _hash_choice sha2 cands salt)
    (fuel : ℕ) : ∀ st, pick_loop sha1 (some salt) cands fuel st =
      pick_loop sha2 (some salt) cands fuel st := by
  induction fuel with
  | zero => intro st; rfl
  | succ k ih =>
      intro st
      simp only [pick_loop]
      rw [h]
      split
      · exact ih st
      · rfl

/-- For EVERY hash function (in particular sha256), two sequential `pick`
calls with identical `(minuteOfDay, tone, salt)` arguments return different
`(text, directiveId)` pairs on this state: the id from the first call enters the
recent history, so the second salted selection is rejected five times and
falls through to unseeded `random.choice`, and rendering draws fresh random
bank words. -/
theorem pick_salted_repeat_differs (sha : String → ℕ) :
    (pick sha 1 "Whimsical" (some "cv_seed") ⟨[], [0, 1, 1]⟩).1 ≠
    (pick sha 1 "Whimsical" (some "cv_seed")
      (pick sha 1 "Whimsical" (some "cv_seed") ⟨[], [0, 1, 1]⟩).2).1 := by
  have hconst : ∀ st : MDState, pick sha 1 "Whimsical" (some "cv_seed") st =
      pick (fun _ => sha "cv_seed") 1 "Whimsical" (some "cv_seed") st :=
    fun _ => rfl
  rw [hconst, hconst]
  generalize sha "cv_seed" = v
  obtain ⟨q, c, hc, rfl⟩ : ∃ q c, c < 7 ∧ v = 7 * q + c :=
    ⟨v / 7, v % 7, Nat.mod_lt _ (by norm_num), (Nat.div_add_mod v 7).symm⟩
  have hmod : _hash_choice (fun _ => 7 * q + c)
      (md_candidates 1 "Whimsical") "cv_seed" =
      _hash_choice (fun _ => c % 7) (md_candidates 1 "Whimsical") "cv_seed" := by
    unfold _hash_choice
    congr 1
    rw [show (md_candidates 1 "Whimsical").length = 7 from rfl]
    show (7 * q + c) % 7 = (c % 7) % 7
    omega
  have hpick : ∀ st : MDState,
      pick (fun _ => 7 * q + c) 1 "Whimsical" (some "cv_seed") st =
      pick (fun _ => c % 7) 1 "Whimsical" (some "cv_seed") st :=
    fun st => pick_hash_congr _ _ _ _ hmod 5 st
  rw [hpick, hpick]
  interval_cases c <;> decide

def shaCE : String → ℕ := fun s => s.data.foldl (fun a ch => a + ch.toNat) 0

def mdRun1 : (String × String) × MDState :=
  pick shaCE 1 "Whimsical" (some "cv_seed") { recent := [], rng := [0, 1, 1] }

def mdRun2 : (String × String) × MDState :=
  pick shaCE 1 "Whimsical" (some "cv_seed") mdRun1.2

/-- C7 counterexample: the two sequential salted calls of
`pick_salted_repeat_differs`, instantiated at a concrete hash, return
different `(text, directiveId)` pairs — repeated calls with the same salt
are not reproducible. -/
theorem C7_counterexample : mdRun1.1 ≠ mdRun2.1 :=
  pick_salted_repeat_differs shaCE

end Chronoverse
